import Mathlib

/-!
Shallow embedding of the authentication/session core of the powergrid
helpdesk frontend: the zustand auth store (in its two variants — the
Supabase-backed one and the REST-API-backed one), the useAuth facade
hook, and the ProtectedRoute route guard.

Each asynchronous provider call is embedded by quantifying over an
explicit outcome datatype (the value the awaited call returns, or the
fact that it threw), and each store operation becomes a pure function
from the current session state and that outcome to the next session
state (plus the rejection message, when the operation can reject).
-/

/-- JavaScript `a || b` on an optional string: the left value when it is
present and not the empty string (JS truthiness), the right one otherwise. -/
def jsOr (a : Option String) (b : String) : String :=
  match a with
  | none => b
  | some x => if x = "" then b else x

/-- The canonical user record (IUser from the repository's types), as the
stores construct it: id, email, name, role, optional department, timestamps. -/
structure IUser where
  id : String
  email : String
  name : String
  role : String
  department : Option String
  createdAt : String
  updatedAt : Option String
deriving DecidableEq, Repr

/-- The Session triple held by the auth store: optional user, optional
token, authenticated flag. -/
structure AuthSession where
  user : Option IUser
  token : Option String
  isAuthenticated : Bool
deriving DecidableEq, Repr

/-- The initial (and cleared) store state: user null, token null,
isAuthenticated false. -/
def emptyAuthSession : AuthSession :=
  { user := none, token := none, isAuthenticated := false }

/-- The authenticated triple the stores set on success. -/
def authSessionOf (u : IUser) (t : String) : AuthSession :=
  { user := some u, token := some t, isAuthenticated := true }

/-- The invariant the spec states on Session: the flag is true exactly
when both user and token are present. -/
def sessionInv (s : AuthSession) : Prop :=
  s.isAuthenticated = (s.user.isSome && s.token.isSome)

/-- A Supabase user object as the store reads it: id, non-null email
(the store uses the non-null assertion), the optional user_metadata
fields name, role and department, and the timestamps. -/
structure SupaUser where
  id : String
  email : String
  user_metadata_name : Option String
  user_metadata_role : Option String
  user_metadata_department : Option String
  created_at : String
  updated_at : Option String
deriving DecidableEq, Repr

/-- A Supabase session object: the access token and the session user. -/
structure SupaSession where
  access_token : String
  user : SupaUser
deriving DecidableEq, Repr

/-- Outcome of an awaited supabase.auth.signInWithPassword or signUp
call: either the awaited promise rejected (carrying the thrown value's
optional message), or it resolved to a pair of a possibly-null error
(carrying its message) and data with possibly-null user and session. -/
inductive SignInOutcome where
  | throwsErr (message : Option String)
  | returns (error : Option String) (user : Option SupaUser) (session : Option SupaSession)
deriving DecidableEq, Repr

/-- Outcome of an awaited supabase.auth.getSession call: it threw, or it
resolved to data whose session is null or present. -/
inductive GetSessionOutcome where
  | throwsErr
  | returns (session : Option SupaSession)
deriving DecidableEq, Repr

namespace SupabaseStore

/-- The transform of a Supabase user into the IUser shape, as written in
login and checkAuth: name defaults to the email and role defaults to
"user" through JS or-defaulting on the metadata fields. -/
def transformUser (u : SupaUser) : IUser :=
  { id := u.id
  , email := u.email
  , name := jsOr u.user_metadata_name u.email
  , role := jsOr u.user_metadata_role "user"
  , department := u.user_metadata_department
  , createdAt := u.created_at
  , updatedAt := u.updated_at }

/-- login of the Supabase store: on a returned error or a thrown one it
rethrows `new Error(message or default)` with the session untouched; on
data carrying both a user and a session it sets the authenticated
triple; on data missing either it resolves with the session untouched.
Result: (next session, rejection message when the call rejected). -/
def login (s : AuthSession) (o : SignInOutcome) : AuthSession × Option String :=
  match o with
  | .throwsErr m => (s, some (jsOr m "Login failed"))
  | .returns (some e) _ _ => (s, some (jsOr (some e) "Login failed"))
  | .returns none (some u) (some ss) =>
      ({ user := some (transformUser u)
       , token := some ss.access_token
       , isAuthenticated := true }, none)
  | .returns none _ _ => (s, none)

/-- The user record register stores: name and department from the
submitted IRegisterData (email, password, name, optional department),
role the literal "user", id/email/timestamps from the provider user. -/
structure IRegisterData where
  email : String
  password : String
  name : String
  department : Option String
deriving DecidableEq, Repr

def registeredUser (d : IRegisterData) (u : SupaUser) : IUser :=
  { id := u.id
  , email := u.email
  , name := d.name
  , role := "user"
  , department := d.department
  , createdAt := u.created_at
  , updatedAt := u.updated_at }

/-- register of the Supabase store: same control flow as login with the
default message "Registration failed", and the stored user built from
the submitted data as registeredUser. -/
def register (s : AuthSession) (d : IRegisterData) (o : SignInOutcome) :
    AuthSession × Option String :=
  match o with
  | .throwsErr m => (s, some (jsOr m "Registration failed"))
  | .returns (some e) _ _ => (s, some (jsOr (some e) "Registration failed"))
  | .returns none (some u) (some ss) =>
      ({ user := some (registeredUser d u)
       , token := some ss.access_token
       , isAuthenticated := true }, none)
  | .returns none _ _ => (s, none)

/-- logout of the Supabase store: awaits signOut inside a try whose
catch only logs, then unconditionally resets the store; the flag says
whether the signOut call failed, and the result never depends on it. -/
def logout (_s : AuthSession) (_signOutFails : Bool) : AuthSession :=
  { user := none, token := none, isAuthenticated := false }

/-- checkAuth of the Supabase store: on a session with a user it sets
the authenticated triple from it, on a null session it clears the
store, and the catch around the whole body also clears the store. -/
def checkAuth (_s : AuthSession) (o : GetSessionOutcome) : AuthSession :=
  match o with
  | .returns (some ss) =>
      { user := some (transformUser ss.user)
      , token := some ss.access_token
      , isAuthenticated := true }
  | .returns none =>
      { user := none, token := none, isAuthenticated := false }
  | .throwsErr =>
      { user := none, token := none, isAuthenticated := false }

end SupabaseStore

/-- An authAPI response as the REST store reads it: success flag,
optional data (a user together with a token for login/register, a bare
user for verifyToken), optional message. -/
structure ApiAuthResponse where
  success : Bool
  data : Option (IUser × String)
  message : Option String
deriving DecidableEq, Repr

/-- Outcome of an awaited authAPI.login or authAPI.register call: the
promise rejected (carrying the optional response.data.message of the
axios error and the optional message of the thrown value), or it
resolved to a response. -/
inductive ApiCallOutcome where
  | throwsErr (responseDataMessage : Option String) (message : Option String)
  | returns (r : ApiAuthResponse)
deriving DecidableEq, Repr

/-- Outcome of an awaited authAPI.verifyToken call: it threw, or it
resolved to a success flag and optional user data. -/
inductive VerifyOutcome where
  | throwsErr
  | returns (success : Bool) (data : Option IUser)
deriving DecidableEq, Repr

namespace ApiStore

/-- login of the REST store. State is the session together with the
localStorage auth-token slot. On response.success with data it stores
the token and sets the authenticated triple; otherwise it throws
`Error(response.message or default)` which its own catch rewraps; a
rejected call rewraps response.data.message, then message, then the
default. Result: ((next session, next localStorage), rejection). -/
def login (s : AuthSession) (ls : Option String) (o : ApiCallOutcome) :
    (AuthSession × Option String) × Option String :=
  match o with
  | .throwsErr rm m => ((s, ls), some (jsOr rm (jsOr m "Login failed")))
  | .returns r =>
      match r.data with
      | some (u, t) =>
          if r.success then
            (({ user := some u, token := some t, isAuthenticated := true }, some t), none)
          else
            ((s, ls), some (jsOr r.message "Login failed"))
      | none => ((s, ls), some (jsOr r.message "Login failed"))

/-- register of the REST store: identical control flow to its login
with the default message "Registration failed". -/
def register (s : AuthSession) (ls : Option String) (o : ApiCallOutcome) :
    (AuthSession × Option String) × Option String :=
  match o with
  | .throwsErr rm m => ((s, ls), some (jsOr rm (jsOr m "Registration failed")))
  | .returns r =>
      match r.data with
      | some (u, t) =>
          if r.success then
            (({ user := some u, token := some t, isAuthenticated := true }, some t), none)
          else
            ((s, ls), some (jsOr r.message "Registration failed"))
      | none => ((s, ls), some (jsOr r.message "Registration failed"))

/-- logout of the REST store: removes the stored token, resets the
store, and fires authAPI.logout whose rejection is only logged; the
flag records whether that call failed and the result never depends on
it. -/
def logout (_s : AuthSession) (_ls : Option String) (_logoutApiFails : Bool) :
    AuthSession × Option String :=
  ({ user := none, token := none, isAuthenticated := false }, none)

/-- checkAuth of the REST store: a missing or empty stored token (JS
falsy check) clears the session and returns early without touching
localStorage; otherwise a successful verifyToken with data sets the
authenticated triple, and any other response or a thrown error removes
the stored token and clears the session. -/
def checkAuth (_s : AuthSession) (ls : Option String) (o : VerifyOutcome) :
    AuthSession × Option String :=
  match ls with
  | none => ({ user := none, token := none, isAuthenticated := false }, none)
  | some t =>
      if t = "" then
        ({ user := none, token := none, isAuthenticated := false }, some t)
      else
        match o with
        | .returns true (some u) =>
            ({ user := some u, token := some t, isAuthenticated := true }, some t)
        | .returns _ _ =>
            ({ user := none, token := none, isAuthenticated := false }, none)
        | .throwsErr =>
            ({ user := none, token := none, isAuthenticated := false }, none)

end ApiStore

/-- Session states of the Supabase store reachable from the initial
empty state by completed login, register, logout and checkAuth
operations, each under an arbitrary provider outcome. -/
inductive ReachableS : AuthSession → Prop where
  | init : ReachableS emptyAuthSession
  | loginStep {s : AuthSession} (o : SignInOutcome) :
      ReachableS s → ReachableS (SupabaseStore.login s o).1
  | registerStep {s : AuthSession} (d : SupabaseStore.IRegisterData) (o : SignInOutcome) :
      ReachableS s → ReachableS (SupabaseStore.register s d o).1
  | logoutStep {s : AuthSession} (f : Bool) :
      ReachableS s → ReachableS (SupabaseStore.logout s f)
  | checkStep {s : AuthSession} (o : GetSessionOutcome) :
      ReachableS s → ReachableS (SupabaseStore.checkAuth s o)

/-- States (session, localStorage token slot) of the REST store
reachable from an initial empty session — the token slot may start
holding anything left from an earlier process — by completed login,
register, logout and checkAuth operations under arbitrary outcomes. -/
inductive ReachableApi : AuthSession × Option String → Prop where
  | init (ls : Option String) : ReachableApi (emptyAuthSession, ls)
  | loginStep {p : AuthSession × Option String} (o : ApiCallOutcome) :
      ReachableApi p → ReachableApi (ApiStore.login p.1 p.2 o).1
  | registerStep {p : AuthSession × Option String} (o : ApiCallOutcome) :
      ReachableApi p → ReachableApi (ApiStore.register p.1 p.2 o).1
  | logoutStep {p : AuthSession × Option String} (f : Bool) :
      ReachableApi p → ReachableApi (ApiStore.logout p.1 p.2 f)
  | checkStep {p : AuthSession × Option String} (o : VerifyOutcome) :
      ReachableApi p → ReachableApi (ApiStore.checkAuth p.1 p.2 o)

/-- The store call the useAuth facade makes for one auth-state-change
notification delivered to its subscription handler. -/
inductive StoreAction where
  | callLogout
  | callCheckAuth
  | noCall
deriving DecidableEq, Repr

/-- The onAuthStateChange handler of the Supabase useAuth hook: a
SIGNED_OUT event invokes logout; any other event accompanied by a
session invokes checkAuth; anything else does nothing. -/
def onAuthStateChangeHandler (event : String) (session : Option SupaSession) : StoreAction :=
  if event = "SIGNED_OUT" then .callLogout
  else if session.isSome then .callCheckAuth
  else .noCall

/-- The direct store calls the useAuth mount effect makes: its
useEffect has an empty dependency list, so it runs once per mount and
calls checkAuth exactly once (both useAuth variants). -/
def useAuthMountCalls : List StoreAction :=
  [.callCheckAuth]

/-- The three possible renderings of ProtectedRoute: the loading
skeleton, a Navigate redirect (target path, and the saved origin
location when one is recorded in the navigation state), or the
protected children. -/
inductive GuardDecision where
  | loading
  | redirect (target : String) (savedFrom : Option String)
  | render
deriving DecidableEq, Repr

def ROUTES_LOGIN : String := "/auth/login"

def ROUTES_HOME : String := "/"

/-- The ProtectedRoute decision over {isAuthenticated, user,
requireRole} and the current location. isAuthenticated is optional to
express the undefined check of the source; a JS-falsy isAuthenticated
is anything other than some true. -/
def protectedRoute (isAuthenticated : Option Bool) (user : Option IUser)
    (requireRole : Option String) (location : String) : GuardDecision :=
  if isAuthenticated = none ∨ (isAuthenticated = some true ∧ user = none) then
    .loading
  else if isAuthenticated ≠ some true then
    .redirect ROUTES_LOGIN (some location)
  else
    match requireRole with
    | some r =>
        if user.map IUser.role ≠ some r then
          .redirect (if r = "admin" then ROUTES_LOGIN else ROUTES_HOME) none
        else
          .render
    | none => .render

/-- Boolean test that one character list starts with another. -/
def listStartsWith : List Char → List Char → Bool
  | [], _ => true
  | _ :: _, [] => false
  | a :: as, b :: bs => a = b && listStartsWith as bs

/-- Boolean test that the first character list occurs contiguously
inside the second. -/
def listOccurs (needle : List Char) : List Char → Bool
  | [] => listStartsWith needle []
  | c :: cs => listStartsWith needle (c :: cs) || listOccurs needle cs

/-- The string needle occurs contiguously inside the haystack. -/
def strOccurs (needle hay : String) : Bool :=
  listOccurs needle.toList hay.toList

/-- The concrete provider user of the spec's login example:
id "1", email "a@x.com", no metadata. -/
def exUser : SupaUser :=
  { id := "1"
  , email := "a@x.com"
  , user_metadata_name := none
  , user_metadata_role := none
  , user_metadata_department := none
  , created_at := "2024-01-01"
  , updated_at := none }

/-- The concrete provider session of the spec's login example, issuing
token "T1". -/
def exSession : SupaSession :=
  { access_token := "T1", user := exUser }

/-- A concrete REST register response whose user record carries a
provider-reported admin role and provider-chosen name and department. -/
def cexRegisterResponse : ApiAuthResponse :=
  { success := true
  , data := some ({ id := "2", email := "c@x.com", name := "Provider Name",
                    role := "admin", department := some "Ops",
                    createdAt := "2024-01-01", updatedAt := none }, "T2")
  , message := none }

theorem listStartsWith_refl (l : List Char) : listStartsWith l l = true := by
  induction l with
  | nil => rfl
  | cons c cs ih => simp [listStartsWith, ih]

theorem listOccurs_nil (l : List Char) : listOccurs [] l = true := by
  cases l <;> simp [listOccurs, listStartsWith]

theorem strOccurs_self (m : String) : strOccurs m m = true := by
  unfold strOccurs
  cases m.toList with
  | nil => simp [listOccurs, listStartsWith]
  | cons c cs => simp [listOccurs, listStartsWith_refl]

theorem strOccurs_jsOr_left (m b : String) : strOccurs m (jsOr (some m) b) = true := by
  by_cases h : m = ""
  · subst h
    simp only [jsOr, if_pos rfl, strOccurs]
    exact listOccurs_nil _
  · simp only [jsOr, if_neg h]
    exact strOccurs_self m

theorem sessionInv_empty : sessionInv emptyAuthSession := rfl

theorem sessionInv_auth (u : IUser) (t : String) :
    sessionInv { user := some u, token := some t, isAuthenticated := true } := rfl

theorem supabase_login_shape (s : AuthSession) (o : SignInOutcome) :
    (SupabaseStore.login s o).1 = s ∨
    ∃ u t, (SupabaseStore.login s o).1 =
      { user := some u, token := some t, isAuthenticated := true } := by
  rcases o with m | ⟨e, uo, sso⟩
  · left; rfl
  · rcases e with _ | e
    · rcases uo with _ | u
      · rcases sso with _ | ss
        · left; rfl
        · left; rfl
      · rcases sso with _ | ss
        · left; rfl
        · right; exact ⟨_, _, rfl⟩
    · left; rfl

theorem supabase_register_shape (s : AuthSession) (d : SupabaseStore.IRegisterData)
    (o : SignInOutcome) :
    (SupabaseStore.register s d o).1 = s ∨
    ∃ u t, (SupabaseStore.register s d o).1 =
      { user := some u, token := some t, isAuthenticated := true } := by
  rcases o with m | ⟨e, uo, sso⟩
  · left; rfl
  · rcases e with _ | e
    · rcases uo with _ | u
      · rcases sso with _ | ss
        · left; rfl
        · left; rfl
      · rcases sso with _ | ss
        · left; rfl
        · right; exact ⟨_, _, rfl⟩
    · left; rfl

theorem supabase_checkAuth_shape (s : AuthSession) (o : GetSessionOutcome) :
    SupabaseStore.checkAuth s o = emptyAuthSession ∨
    ∃ u t, SupabaseStore.checkAuth s o =
      { user := some u, token := some t, isAuthenticated := true } := by
  rcases o with _ | sso
  · left; rfl
  · rcases sso with _ | ss
    · left; rfl
    · right; exact ⟨_, _, rfl⟩

theorem api_login_shape (s : AuthSession) (ls : Option String) (o : ApiCallOutcome) :
    (ApiStore.login s ls o).1.1 = s ∨
    ∃ u t, (ApiStore.login s ls o).1.1 =
      { user := some u, token := some t, isAuthenticated := true } := by
  rcases o with ⟨rm, m⟩ | ⟨su, d, msg⟩
  · left; rfl
  · rcases d with _ | ⟨u, t⟩
    · left; rfl
    · rcases su with _ | _
      · left; simp [ApiStore.login]
      · right; exact ⟨u, t, by simp [ApiStore.login]⟩

theorem api_register_shape (s : AuthSession) (ls : Option String) (o : ApiCallOutcome) :
    (ApiStore.register s ls o).1.1 = s ∨
    ∃ u t, (ApiStore.register s ls o).1.1 =
      { user := some u, token := some t, isAuthenticated := true } := by
  rcases o with ⟨rm, m⟩ | ⟨su, d, msg⟩
  · left; rfl
  · rcases d with _ | ⟨u, t⟩
    · left; rfl
    · rcases su with _ | _
      · left; simp [ApiStore.register]
      · right; exact ⟨u, t, by simp [ApiStore.register]⟩

theorem api_checkAuth_shape (s : AuthSession) (ls : Option String) (o : VerifyOutcome) :
    (ApiStore.checkAuth s ls o).1 = emptyAuthSession ∨
    ∃ u t, (ApiStore.checkAuth s ls o).1 =
      { user := some u, token := some t, isAuthenticated := true } := by
  rcases ls with _ | t
  · left; rfl
  · by_cases ht : t = ""
    · left; simp [ApiStore.checkAuth, ht, emptyAuthSession]
    · rcases o with _ | ⟨su, d⟩
      · left; simp [ApiStore.checkAuth, ht, emptyAuthSession]
      · rcases su with _ | _
        · left; simp [ApiStore.checkAuth, ht, emptyAuthSession]
        · rcases d with _ | u
          · left; simp [ApiStore.checkAuth, ht, emptyAuthSession]
          · right; exact ⟨u, t, by simp [ApiStore.checkAuth, ht]⟩

/-- C1: for every reachable Session state of the auth store (initial
state and any sequence of completed login, register, logout, checkAuth
operations), in both store variants, isAuthenticated is true exactly
when both user and token are present. -/
theorem auth_session_invariant :
    (∀ s : AuthSession, ReachableS s → sessionInv s) ∧
    (∀ p : AuthSession × Option String, ReachableApi p → sessionInv p.1) := by
  constructor
  · intro s h
    induction h with
    | init => exact sessionInv_empty
    | loginStep o _ ih =>
      rcases supabase_login_shape _ o with h1 | ⟨u, t, h1⟩ <;> rw [h1]
      · exact ih
      · exact sessionInv_auth u t
    | registerStep d o _ ih =>
      rcases supabase_register_shape _ d o with h1 | ⟨u, t, h1⟩ <;> rw [h1]
      · exact ih
      · exact sessionInv_auth u t
    | logoutStep f _ _ => exact sessionInv_empty
    | checkStep o _ _ =>
      rcases supabase_checkAuth_shape _ o with h1 | ⟨u, t, h1⟩ <;> rw [h1]
      · exact sessionInv_empty
      · exact sessionInv_auth u t
  · intro p h
    induction h with
    | init ls => exact sessionInv_empty
    | loginStep o _ ih =>
      rcases api_login_shape _ _ o with h1 | ⟨u, t, h1⟩ <;> rw [h1]
      · exact ih
      · exact sessionInv_auth u t
    | registerStep o _ ih =>
      rcases api_register_shape _ _ o with h1 | ⟨u, t, h1⟩ <;> rw [h1]
      · exact ih
      · exact sessionInv_auth u t
    | logoutStep f _ _ => exact sessionInv_empty
    | checkStep o _ _ =>
      rcases api_checkAuth_shape _ _ o with h1 | ⟨u, t, h1⟩ <;> rw [h1]
      · exact sessionInv_empty
      · exact sessionInv_auth u t

/-- C1 witness: the invariant instantiated at a concrete reachable
state, the one after a successful login from the initial state. -/
theorem auth_session_invariant_witness :
    sessionInv (SupabaseStore.login emptyAuthSession
      (.returns none (some exUser) (some exSession))).1 :=
  auth_session_invariant.1 _
    (ReachableS.loginStep (.returns none (some exUser) (some exSession)) ReachableS.init)

/-- C3: checkAuth is a total function of the starting session and the
provider outcome (it never throws), and for every starting Session and
every outcome it ends in a definite triple: the authenticated triple
built from the provider session when one with a user is reported — for
the REST store, when a non-empty token is stored and verifyToken
succeeds with a user — and the unauthenticated triple in every other
case, including a thrown error, in both store variants. -/
theorem checkAuth_definite :
    (∀ (s : AuthSession) (ss : SupaSession),
      SupabaseStore.checkAuth s (.returns (some ss)) =
        authSessionOf (SupabaseStore.transformUser ss.user) ss.access_token) ∧
    (∀ s : AuthSession,
      SupabaseStore.checkAuth s (.returns none) = emptyAuthSession ∧
      SupabaseStore.checkAuth s .throwsErr = emptyAuthSession) ∧
    (∀ (s : AuthSession) (t : String) (u : IUser), t ≠ "" →
      ApiStore.checkAuth s (some t) (.returns true (some u)) =
        (authSessionOf u t, some t)) ∧
    (∀ (s : AuthSession) (ls : Option String) (o : VerifyOutcome),
      (ApiStore.checkAuth s ls o).1 = emptyAuthSession ∨
      ∃ u t, ls = some t ∧ o = .returns true (some u) ∧
        (ApiStore.checkAuth s ls o).1 = authSessionOf u t) := by
  refine ⟨fun s ss => rfl, fun s => ⟨rfl, rfl⟩, ?_, fun s ls o => ?_⟩
  · intro s t u ht
    simp [ApiStore.checkAuth, ht, authSessionOf]
  rcases ls with _ | t
  · left; rfl
  · by_cases ht : t = ""
    · left; simp [ApiStore.checkAuth, ht, emptyAuthSession]
    · rcases o with _ | ⟨su, d⟩
      · left; simp [ApiStore.checkAuth, ht, emptyAuthSession]
      · rcases su with _ | _
        · left; simp [ApiStore.checkAuth, ht, emptyAuthSession]
        · rcases d with _ | u
          · left; simp [ApiStore.checkAuth, ht, emptyAuthSession]
          · right; exact ⟨u, t, rfl, rfl, by simp [ApiStore.checkAuth, ht, authSessionOf]⟩

/-- C3 witness: with the non-empty token "T1" stored and verifyToken
succeeding with a concrete user, the REST checkAuth ends in the
authenticated triple for that user and token. -/
theorem checkAuth_definite_witness :
    ApiStore.checkAuth emptyAuthSession (some "T1")
      (.returns true (some { id := "1", email := "a@x.com", name := "a@x.com",
                             role := "user", department := none,
                             createdAt := "2024-01-01", updatedAt := none })) =
      (authSessionOf { id := "1", email := "a@x.com", name := "a@x.com",
                       role := "user", department := none,
                       createdAt := "2024-01-01", updatedAt := none } "T1",
       some "T1") :=
  checkAuth_definite.2.2.1 emptyAuthSession "T1" _ (by decide)

/-- C5: logout always ends with the cleared Session triple, whether or
not the provider signOut (resp. the logout API call) fails, in both
store variants; it surfaces no error (total functions with no error
component). -/
theorem logout_always_clears :
    (∀ (s : AuthSession) (f : Bool), SupabaseStore.logout s f = emptyAuthSession) ∧
    (∀ (s : AuthSession) (ls : Option String) (f : Bool),
      ApiStore.logout s ls f = (emptyAuthSession, none)) :=
  ⟨fun _ _ => rfl, fun _ _ _ => rfl⟩

/-- C9: checkAuth is idempotent — with the provider (and, for the REST
store, the verify outcome) fixed, running it a second time from the
state the first run produced yields the same state, in both store
variants. -/
theorem checkAuth_idempotent :
    (∀ (s : AuthSession) (o : GetSessionOutcome),
      SupabaseStore.checkAuth (SupabaseStore.checkAuth s o) o =
        SupabaseStore.checkAuth s o) ∧
    (∀ (s : AuthSession) (ls : Option String) (o : VerifyOutcome),
      ApiStore.checkAuth (ApiStore.checkAuth s ls o).1 (ApiStore.checkAuth s ls o).2 o =
        ApiStore.checkAuth s ls o) := by
  constructor
  · intro s o
    rcases o with _ | (_ | ss) <;> rfl
  · intro s ls o
    rcases ls with _ | t
    · rfl
    · by_cases ht : t = ""
      · subst ht; rcases o with _ | ⟨su, d⟩ <;> simp [ApiStore.checkAuth]
      · rcases o with _ | ⟨su, d⟩
        · simp [ApiStore.checkAuth, ht]
        · rcases su with _ | _
          · simp [ApiStore.checkAuth, ht]
          · rcases d with _ | u <;> simp [ApiStore.checkAuth, ht]

/-- C2: the ProtectedRoute decision — an unauthenticated state
redirects to the login route recording the requested location; an
authenticated user whose role misses the required one is redirected to
login when the required role is "admin" and to home otherwise; an
authenticated user with no required role or a matching one gets the
protected content. -/
theorem protectedRoute_decision :
    ∀ (u : IUser) (uo : Option IUser) (r : String) (req : Option String) (loc : String),
      (protectedRoute (some false) uo req loc = .redirect ROUTES_LOGIN (some loc)) ∧
      (u.role ≠ r →
        protectedRoute (some true) (some u) (some r) loc =
          .redirect (if r = "admin" then ROUTES_LOGIN else ROUTES_HOME) none) ∧
      (protectedRoute (some true) (some u) none loc = .render) ∧
      (protectedRoute (some true) (some u) (some u.role) loc = .render) := by
  intro u uo r req loc
  refine ⟨?_, ?_, ?_, ?_⟩
  · simp [protectedRoute]
  · intro h
    simp [protectedRoute, h]
  · simp [protectedRoute]
  · simp [protectedRoute]

/-- C2 witness: a concrete non-admin user requesting an admin page is
sent to the login route, not home. -/
theorem protectedRoute_decision_witness :
    protectedRoute (some true)
      (some { id := "9", email := "b@x.com", name := "B", role := "user",
              department := none, createdAt := "2024-01-01", updatedAt := none })
      (some "admin") "/admin/dashboard" = .redirect ROUTES_LOGIN none := by
  have h := (protectedRoute_decision
    { id := "9", email := "b@x.com", name := "B", role := "user",
      department := none, createdAt := "2024-01-01", updatedAt := none }
    none "admin" none "/admin/dashboard").2.1 (by decide)
  simpa using h

/-- C4: when the provider rejects a login — a returned auth error or a
thrown one in the Supabase store, a rejected call or an unsuccessful
response in the REST store — the Session (and the stored token) is left
exactly as it was, and the operation rejects with a message in which
the provider message occurs. -/
theorem login_failure_preserves_session :
    ∀ (s : AuthSession) (m : String) (uo : Option SupaUser) (sso : Option SupaSession)
      (ls : Option String) (mo : Option String) (d : Option (IUser × String)),
      ((SupabaseStore.login s (.returns (some m) uo sso)).1 = s ∧
        ∃ e, (SupabaseStore.login s (.returns (some m) uo sso)).2 = some e ∧
          strOccurs m e = true) ∧
      ((SupabaseStore.login s (.throwsErr (some m))).1 = s ∧
        ∃ e, (SupabaseStore.login s (.throwsErr (some m))).2 = some e ∧
          strOccurs m e = true) ∧
      ((ApiStore.login s ls (.throwsErr (some m) mo)).1 = (s, ls) ∧
        ∃ e, (ApiStore.login s ls (.throwsErr (some m) mo)).2 = some e ∧
          strOccurs m e = true) ∧
      ((ApiStore.login s ls (.returns ⟨false, d, some m⟩)).1 = (s, ls) ∧
        ∃ e, (ApiStore.login s ls (.returns ⟨false, d, some m⟩)).2 = some e ∧
          strOccurs m e = true) := by
  intro s m uo sso ls mo d
  refine ⟨⟨rfl, _, rfl, strOccurs_jsOr_left m _⟩,
    ⟨rfl, _, rfl, strOccurs_jsOr_left m _⟩,
    ⟨rfl, _, rfl, strOccurs_jsOr_left m _⟩, ?_⟩
  rcases d with _ | ⟨iu, t⟩
  · exact ⟨rfl, _, rfl, strOccurs_jsOr_left m _⟩
  · exact ⟨rfl, _, rfl, strOccurs_jsOr_left m _⟩

/-- C6: a successful login stores the provider identity transformed to
the canonical record — role defaulting to "user" and name to the email
when the metadata misses them, the other fields copied — together with
the issued access token, as the authenticated triple. -/
theorem login_normalizes_user :
    ∀ (s : AuthSession) (u : SupaUser) (ss : SupaSession),
      (SupabaseStore.login s (.returns none (some u) (some ss)) =
        (authSessionOf (SupabaseStore.transformUser u) ss.access_token, none)) ∧
      (u.user_metadata_role = none → (SupabaseStore.transformUser u).role = "user") ∧
      (u.user_metadata_name = none → (SupabaseStore.transformUser u).name = u.email) ∧
      (SupabaseStore.transformUser u).id = u.id ∧
      (SupabaseStore.transformUser u).email = u.email ∧
      (SupabaseStore.transformUser u).department = u.user_metadata_department ∧
      (SupabaseStore.transformUser u).createdAt = u.created_at ∧
      (SupabaseStore.transformUser u).updatedAt = u.updated_at := by
  intro s u ss
  refine ⟨rfl, ?_, ?_, rfl, rfl, rfl, rfl, rfl⟩
  · intro h
    simp [SupabaseStore.transformUser, jsOr, h]
  · intro h
    simp [SupabaseStore.transformUser, jsOr, h]

/-- C6 witness: the spec example — provider returns id "1", email
"a@x.com", token "T1", no metadata — yields the authenticated triple
whose user has role "user" and name "a@x.com". -/
theorem login_normalizes_user_witness :
    (SupabaseStore.login emptyAuthSession (.returns none (some exUser) (some exSession)) =
      (authSessionOf (SupabaseStore.transformUser exUser) exSession.access_token, none)) ∧
    (SupabaseStore.transformUser exUser).role = "user" ∧
    (SupabaseStore.transformUser exUser).name = exUser.email ∧
    SupabaseStore.transformUser exUser =
      { id := "1", email := "a@x.com", name := "a@x.com", role := "user",
        department := none, createdAt := "2024-01-01", updatedAt := none } :=
  ⟨(login_normalizes_user emptyAuthSession exUser exSession).1,
   (login_normalizes_user emptyAuthSession exUser exSession).2.1 rfl,
   (login_normalizes_user emptyAuthSession exUser exSession).2.2.1 rfl,
   rfl⟩

/-- C7 (amended to the Supabase store, the variant that builds the
record itself): a successful register there stores role "user" whatever
role the provider metadata carries, and the submitted name and
department rather than anything in the provider response, in the
authenticated triple with the issued token. The REST store instead
stores the provider-returned user verbatim — see the counterexample. -/
theorem register_forces_submitted_fields :
    ∀ (s : AuthSession) (d : SupabaseStore.IRegisterData) (u : SupaUser) (ss : SupaSession),
      (SupabaseStore.register s d (.returns none (some u) (some ss)) =
        (authSessionOf (SupabaseStore.registeredUser d u) ss.access_token, none)) ∧
      (SupabaseStore.registeredUser d u).role = "user" ∧
      (SupabaseStore.registeredUser d u).name = d.name ∧
      (SupabaseStore.registeredUser d u).department = d.department :=
  fun _ _ _ _ => ⟨rfl, rfl, rfl, rfl⟩

/-- C7 counterexample: in the REST store a successful register stores
the provider-reported user verbatim — here role "admin", name
"Provider Name" and department "Ops" from the response — so the stored
role is not the forced "user", refuting the claim as frozen for that
cited variant. -/
theorem register_forces_submitted_fields_cex :
    ((ApiStore.register emptyAuthSession none
        (.returns cexRegisterResponse)).1.1.user.map IUser.role = some "admin") ∧
    ((ApiStore.register emptyAuthSession none
        (.returns cexRegisterResponse)).1.1.user.map IUser.role ≠ some "user") ∧
    ((ApiStore.register emptyAuthSession none
        (.returns cexRegisterResponse)).1.1.user.map IUser.name = some "Provider Name") ∧
    ((ApiStore.register emptyAuthSession none
        (.returns cexRegisterResponse)).1.1.isAuthenticated = true) ∧
    ((ApiStore.register emptyAuthSession none
        (.returns cexRegisterResponse)).2 = none) := by
  refine ⟨rfl, ?_, rfl, rfl, rfl⟩
  decide

/-- C8: the facade subscription handler invokes logout on the
SIGNED_OUT event (never checkAuth there), invokes checkAuth on any
other event carrying a session, and the mount effect makes exactly one
direct checkAuth call. -/
theorem useAuth_handler_dispatch :
    ∀ (e : String) (ss : SupaSession) (so : Option SupaSession),
      (onAuthStateChangeHandler "SIGNED_OUT" so = .callLogout) ∧
      (e ≠ "SIGNED_OUT" → onAuthStateChangeHandler e (some ss) = .callCheckAuth) ∧
      useAuthMountCalls.count .callCheckAuth = 1 := by
  intro e ss so
  refine ⟨rfl, ?_, rfl⟩
  intro h
  simp [onAuthStateChangeHandler, h]

/-- C8 witness: a TOKEN_REFRESHED event with a live session triggers
checkAuth. -/
theorem useAuth_handler_dispatch_witness :
    onAuthStateChangeHandler "TOKEN_REFRESHED" (some exSession) = .callCheckAuth :=
  (useAuth_handler_dispatch "TOKEN_REFRESHED" exSession none).2.1 (by decide)

/-- C10: when the Supabase provider returns neither an error nor both a
user and a session (for instance sign-up pending email confirmation),
login and register resolve with no rejection and the Session completely
unchanged, so a caller starting unauthenticated observes a successful
call with isAuthenticated still false. -/
theorem login_pending_leaves_session :
    ∀ (s : AuthSession) (d : SupabaseStore.IRegisterData) (u : SupaUser) (ss : SupaSession),
      SupabaseStore.login s (.returns none (some u) none) = (s, none) ∧
      SupabaseStore.login s (.returns none none (some ss)) = (s, none) ∧
      SupabaseStore.login s (.returns none none none) = (s, none) ∧
      SupabaseStore.register s d (.returns none (some u) none) = (s, none) ∧
      SupabaseStore.register s d (.returns none none (some ss)) = (s, none) ∧
      SupabaseStore.register s d (.returns none none none) = (s, none) ∧
      (SupabaseStore.login emptyAuthSession
        (.returns none (some u) none)).1.isAuthenticated = false :=
  fun _ _ _ _ => ⟨rfl, rfl, rfl, rfl, rfl, rfl, rfl⟩
